import Mathlib

/-!
# Verification of `lib/model/masks.py` (faceswap mask builder)

Shallow embedding of the mask-construction module.  Arrays are nested
lists of rationals (`ℚ` stands in for the float values; no claim here
depends on floating-point rounding):

* a pixel is a `List ℚ` (its channels),
* an image is a `List (List Pixel))` (rows of pixels),
* a batch is a `List Image`.

Landmark arrays are `List (List ℤ)` (N rows, each a 2-coordinate row
when well formed).  Fallible Python code is embedded as `Except PyErr`.
External collaborators (`numpy`, `cv2`, the model cache, the inference
runtime) are modelled by their documented behaviour on the call sites
this module uses; the inference call itself is an injected function
parameter.
-/

set_option autoImplicit false

/-- Python exceptions that the embedded code can raise. -/
inductive PyErr where
  | keyError
  | indexError
  | typeError
  | valueError
  | cv2Error
  | attributeError
  | assertionError
deriving DecidableEq

instance {ε α : Type} [DecidableEq ε] [DecidableEq α] : DecidableEq (Except ε α)
  | .ok a, .ok b =>
      if h : a = b then .isTrue (by rw [h]) else .isFalse (by intro hh; cases hh; exact h rfl)
  | .error e, .error f =>
      if h : e = f then .isTrue (by rw [h]) else .isFalse (by intro hh; cases hh; exact h rfl)
  | .ok _, .error _ => .isFalse (by intro h; cases h)
  | .error _, .ok _ => .isFalse (by intro h; cases h)

abbrev Pixel : Type := List ℚ

abbrev Image : Type := List (List Pixel)

/-- A landmark array: rows of coordinates (shape `(N, 2)` when well
formed).  Coordinates are integers: `cv2.fillConvexPoly` only accepts
`int32` points, so integer-typed landmarks are the working dtype. -/
abbrev LmArray : Type := List (List ℤ)

/-- The `landmarks` argument of `Facehull.build_masks`: either a single
2-dimensional `(68, 2)` array (`Sum.inl`) or a batch of them (`Sum.inr`),
mirroring the `landmarks.ndim == 2` test in the source. -/
abbrev LmInput : Type := LmArray ⊕ List LmArray

/-! ## numpy / cv2 call-site models -/

/-- Result of `np.concatenate` at the call sites of this module: the
argument is either a tuple of 2-D arrays (concatenated row-wise, staying
2-D) or — as happens for the `"facehull"` kind, whose `parts` entry is a
bare array, not a tuple — a single 2-D array, which numpy iterates over
its rows and therefore flattens into a 1-D array of scalars. -/
inductive NpArr where
  | oneD (xs : List ℤ)
  | twoD (rows : List (List ℤ))
deriving DecidableEq

/-- Argument shape fed to `np.concatenate` by `Facehull.build_masks`:
`arr` is a bare landmark array (the `"facehull"` variant), `tup` a tuple
of landmark slices (the `"dfl_full"` / `"components"` variants). -/
inductive ConcatArg where
  | arr (a : LmArray)
  | tup (ts : List LmArray)
deriving DecidableEq

/-- `np.concatenate`: an empty sequence of arrays raises
`ValueError: need at least one array to concatenate`; a tuple of 2-D
arrays concatenates row-wise; a bare 2-D array is iterated over its rows
(each of which is 1-D), so the result is the 1-D flattening. -/
def npConcatenate : ConcatArg → Except PyErr NpArr
  | .arr [] => .error .valueError
  | .arr a => .ok (.oneD a.flatten)
  | .tup [] => .error .valueError
  | .tup ts => .ok (.twoD ts.flatten)

/-- `cv2.convexHull`.  A 1-D single-channel array fails the
`checkVector(2)` assertion and raises `cv2.error`; so do rows that are
not coordinate pairs.  On a well-formed point set the real routine
returns the hull vertices; since the hull is only ever used to fill its
convex polygon, and the convex hull of the hull vertices equals the
convex hull of the input points, the model returns the point set itself
(an empty point set yields an empty hull, drawn as a no-op). -/
def cv2.convexHull : NpArr → Except PyErr LmArray
  | .oneD _ => .error .cv2Error
  | .twoD rows => if rows.all (fun r => r.length == 2) then .ok rows else .error .cv2Error

/-- Read a coordinate row as an `(x, y)` point. -/
def toPair (r : List ℤ) : ℤ × ℤ := (r.headD 0, (r.drop 1).headD 0)

/-- Cross product of `a - o` and `p - o`. -/
def cross (o a p : ℤ × ℤ) : ℤ :=
  (a.1 - o.1) * (p.2 - o.2) - (a.2 - o.2) * (p.1 - o.1)

/-- `p` lies in the bounding box of `a`, `b`, `c`. -/
def inBBox (a b c p : ℤ × ℤ) : Bool :=
  decide (min a.1 (min b.1 c.1) ≤ p.1) && decide (p.1 ≤ max a.1 (max b.1 c.1)) &&
  decide (min a.2 (min b.2 c.2) ≤ p.2) && decide (p.2 ≤ max a.2 (max b.2 c.2))

/-- `p` lies in the (possibly degenerate) triangle `a b c`: the three
cross products share a sign and `p` lies in the bounding box (the box
condition settles the collinear cases). -/
def inTri (a b c p : ℤ × ℤ) : Bool :=
  ((decide (0 ≤ cross a b p) && decide (0 ≤ cross b c p) && decide (0 ≤ cross c a p)) ||
   (decide (cross a b p ≤ 0) && decide (cross b c p ≤ 0) && decide (cross c a p ≤ 0))) &&
  inBBox a b c p

/-- `p` lies in the convex hull of `pts` (Carathéodory: in some triangle
over `pts`, repetitions allowed). -/
def inHull (pts : List (ℤ × ℤ)) (p : ℤ × ℤ) : Bool :=
  pts.any fun a => pts.any fun b => pts.any fun c => inTri a b c p

/-- One row of `cv2.fillConvexPoly`: pixel `x` (at column offset `x`) of
row `y` is overwritten with the fill value `v` exactly when its centre
lies in the hull, and is left untouched otherwise. -/
def fillRowFrom (pts : List (ℤ × ℤ)) (v : ℚ) (y : Nat) : Nat → List Pixel → List Pixel
  | _, [] => []
  | x, px :: rest =>
      (if inHull pts ((x : ℤ), (y : ℤ)) then px.map (fun _ => v) else px) ::
        fillRowFrom pts v y (x + 1) rest

/-- Rows of `cv2.fillConvexPoly`, from row index `y` down. -/
def fillImgFrom (pts : List (ℤ × ℤ)) (v : ℚ) : Nat → Image → Image
  | _, [] => []
  | y, row :: rest => fillRowFrom pts v y 0 row :: fillImgFrom pts v (y + 1) rest

/-- `cv2.fillConvexPoly(img, hull, v)`: fill the convex polygon spanned
by `hull` with value `v`, leaving every other pixel unchanged. -/
def fillConvexPoly (img : Image) (hull : LmArray) (v : ℚ) : Image :=
  fillImgFrom (hull.map toPair) v 0 img

/-! ## Module-level functions -/

/-- `get_available_masks` (masks.py line 15). -/
def get_available_masks : List String :=
  ["components", "dfl_full", "facehull", "none", "vgg_300", "vgg_500", "unet_256"]

/-- The selection expression of `get_default_mask` (line 24):
`"dfl_full" if "dfl_full" in masks else masks[0]` (the list is never
empty at the call site; `headD` models `masks[0]`). -/
def default_from (masks : List String) : String :=
  if "dfl_full" ∈ masks then "dfl_full" else masks.headD ""

/-- `get_default_mask` (line 21). -/
def get_default_mask : String := default_from get_available_masks

/-- `np.repeat(masks, 3, axis=-1)` / `np.concatenate(..., axis=-1)` act
pixel-wise; `mapPixels` applies a per-pixel function over a batch. -/
def mapPixels (f : Pixel → Pixel) (b : List Image) : List Image :=
  b.map fun im => im.map fun row => row.map f

/-- Pixel-wise zip of two equally-shaped batches (the numpy broadcast of
`np.concatenate((faces[..., :3], masks), axis=-1)`). -/
def zipBatch (f : Pixel → Pixel → Pixel) (a b : List Image) : List Image :=
  List.zipWith (fun ia ib => List.zipWith (fun ra rb => List.zipWith f ra rb) ia ib) a b

/-- `Mask.merge_masks` (lines 54-64): 3 channels repeats the mask
channel three times along the last axis, 4 channels concatenates the
first three face channels with the mask, anything else returns the mask
unchanged. -/
def merge_masks (channels : Nat) (faces masks : List Image) : List Image :=
  if channels = 3 then mapPixels (fun px => px.flatMap (fun q => [q, q, q])) masks
  else if channels = 4 then zipBatch (fun pf pm => pf.take 3 ++ pm) faces masks
  else masks

/-- `Mask.__init__` (lines 40-48): asserts `channels in (1, 3, 4)`
before anything else, then calls the subclass `build_masks` hook and
merges its result.  The hook is a parameter so that the theorems can
quantify over every strategy. -/
def Mask.mk (channels : Nat) (mask_type : Option String) (faces : List Image)
    (build : Option String → List Image → Except PyErr (List Image)) :
    Except PyErr (List Image) :=
  if channels = 1 ∨ channels = 3 ∨ channels = 4 then
    (build mask_type faces).map (merge_masks channels faces)
  else .error .assertionError

/-! ## Facehull strategy -/

/-- Python slice `landmarks[a:b]`. -/
def lslice (l : LmArray) (a b : Nat) : LmArray := (l.drop a).take (b - a)

/-- `Facehull.one` (line 70): `parts = [(landmarks)]` — note the
parenthesised expression is the bare array, not a one-element tuple. -/
def Facehull.one (landmarks : LmArray) : List ConcatArg :=
  [.arr landmarks]

/-- `Facehull.three` (line 76): jaw, nose ridge, eyes. -/
def Facehull.three (landmarks : LmArray) : List ConcatArg :=
  [.tup [lslice landmarks 0 17, lslice landmarks 48 68, lslice landmarks 0 1,
         lslice landmarks 8 9, lslice landmarks 16 17],
   .tup [lslice landmarks 27 31, lslice landmarks 33 34],
   .tup [lslice landmarks 17 27, lslice landmarks 0 1, lslice landmarks 27 28,
         lslice landmarks 16 17, lslice landmarks 33 34]]

/-- `Facehull.eight` (line 93): the eight facial components. -/
def Facehull.eight (landmarks : LmArray) : List ConcatArg :=
  [.tup [lslice landmarks 0 9, lslice landmarks 17 18],
   .tup [lslice landmarks 8 17, lslice landmarks 26 27],
   .tup [lslice landmarks 17 20, lslice landmarks 8 9],
   .tup [lslice landmarks 24 27, lslice landmarks 8 9],
   .tup [lslice landmarks 19 25, lslice landmarks 8 9],
   .tup [lslice landmarks 17 22, lslice landmarks 27 28, lslice landmarks 31 36,
         lslice landmarks 8 9],
   .tup [lslice landmarks 22 27, lslice landmarks 27 28, lslice landmarks 31 36,
         lslice landmarks 8 9],
   .tup [lslice landmarks 27 31, lslice landmarks 31 36]]

/-- The `build_dict` of `Facehull.build_masks` (line 119); looking up an
unknown key raises `KeyError`. -/
def Facehull.build_dict (mask_type : Option String) :
    Except PyErr (LmArray → List ConcatArg) :=
  match mask_type with
  | none => .ok Facehull.three
  | some s =>
      if s = "facehull" then .ok Facehull.one
      else if s = "dfl_full" then .ok Facehull.three
      else if s = "components" then .ok Facehull.eight
      else .error .keyError

/-- `np.array(np.zeros(faces.shape[:-1] + (1,)), dtype='float32', ndmin=4)`
(line 123) for a 4-dimensional faces batch: an all-zero single-channel
canvas of the same batch/height/width. -/
def zeroCanvas (faces : List Image) : List Image :=
  faces.map fun im => im.map fun row => row.map fun _ => [(0 : ℚ)]

/-- The inner `for item in parts` loop of `Facehull.build_masks`
(lines 128-136).  `np.concatenate` and `cv2.convexHull` are evaluated
outside the `try`, so their exceptions propagate.  Only
`cv2.fillConvexPoly(masks[i], hull, 1.)` is inside the `try`; its
handler formats `error.message`, an attribute Python 3 exceptions do not
have, so anything raised inside the `try` (e.g. an `IndexError` from
`masks[i]`) resurfaces as an `AttributeError` from the handler itself. -/
def processParts (canvas : List Image) (i : Nat) :
    List ConcatArg → Except PyErr (List Image)
  | [] => .ok canvas
  | item :: rest => do
      let arr ← npConcatenate item
      let hull ← cv2.convexHull arr
      let canvas2 ←
        if h : i < canvas.length then
          Except.ok (canvas.set i (fillConvexPoly (canvas.get ⟨i, h⟩) hull 1))
        else
          Except.error PyErr.attributeError
      processParts canvas2 i rest

/-- The `for i, landmark in enumerate(landmarks)` loop of
`Facehull.build_masks` (line 126).  The `build_dict[mask_type]` lookup
happens inside the loop body, once per landmark set. -/
def facehullLoop (mask_type : Option String) :
    List Image → Nat → List LmArray → Except PyErr (List Image)
  | canvas, _, [] => .ok canvas
  | canvas, i, lm :: rest => do
      let partsFn ← Facehull.build_dict mask_type
      let canvas2 ← processParts canvas i (partsFn lm)
      facehullLoop mask_type canvas2 (i + 1) rest

/-- `Facehull.build_masks` (lines 113-138) over a 4-dimensional faces
batch: allocate the zero canvas, promote a 2-dimensional landmark array
to a batch of one, then run the fill loop. -/
def Facehull.build_masks (mask_type : Option String) (faces : List Image)
    (landmarks : LmInput) : Except PyErr (List Image) :=
  facehullLoop mask_type (zeroCanvas faces) 0
    (match landmarks with
     | .inl l => [l]
     | .inr ls => ls)

/-! ## Smart (learned) strategy -/

/-- The `build_dict` of `Smart.build_masks` (line 151): git model id and
filename per mask kind; unknown keys raise `KeyError`. -/
def Smart.build_dict (mask_type : Option String) : Except PyErr (Nat × String) :=
  match mask_type with
  | none => .ok (5, "Nirkin_500_softmax_v1.h5")
  | some s =>
      if s = "vgg_300" then .ok (8, "Nirkin_300_softmax_v1.h5")
      else if s = "vgg_500" then .ok (5, "Nirkin_500_softmax_v1.h5")
      else if s = "unet_256" then .ok (6, "DFL_256_sigmoid_v1.h5")
      else .error .keyError

/-- Line 162 of the source,
`np.array(np.zeros(faces.shape[:-1] + (1, )), dtype='float32', ndim=4)`:
`np.array` has no keyword `ndim` (the Facehull site correctly writes
`ndmin`), so the call raises
`TypeError: 'ndim' is an invalid keyword argument for array()`. -/
def npArrayNdimKw : Except PyErr (List Image) := .error .typeError

/-- `Smart.build_masks` (lines 144-181).  The dispatch lookup runs
first; `GetModel` and `keras.models.load_model` are external
collaborators assumed to succeed (`predict` is the injected inference
function, never reached); then the canvas allocation at line 162 raises
`TypeError` unconditionally, so the clamping code below it (lines
163-179) is unreachable. -/
def Smart.build_masks (mask_type : Option String) (faces : List Image)
    (means : List Image) (predict : List Image → List Image) :
    Except PyErr (List Image) := do
  let _gitModel ← Smart.build_dict mask_type
  npArrayNdimKw

/-! ## Dummy (pass-through) strategy -/

/-- `Dummy.build_masks` (lines 223-227): `np.ones_like(faces)` — an
all-ones array of the same shape as `faces`, channels included. -/
def Dummy.build_masks (mask_type : Option String) (faces : List Image) : List Image :=
  faces.map fun im => im.map fun row => row.map fun px => px.map fun _ => (1 : ℚ)

/-! ## Shape and value predicates -/

/-- Every value in the batch is `1`. -/
def isAllOnes (b : List Image) : Bool :=
  b.all fun im => im.all fun row => row.all fun px => px.all fun q => decide (q = 1)

/-- Every value in the batch is `0`. -/
def isAllZeros (b : List Image) : Bool :=
  b.all fun im => im.all fun row => row.all fun px => px.all fun q => decide (q = 0)

/-- Every value in the batch is `0` or `1`. -/
def isBinary (b : List Image) : Bool :=
  b.all fun im => im.all fun row => row.all fun px => px.all fun q =>
    decide (q = 0) || decide (q = 1)

/-- Two pixel rows have the same per-pixel channel counts. -/
def shRow : List Pixel → List Pixel → Bool
  | [], [] => true
  | pa :: ra, pb :: rb => pa.length == pb.length && shRow ra rb
  | _, _ => false

/-- Two images have the same rows with the same per-pixel shapes. -/
def shImg : Image → Image → Bool
  | [], [] => true
  | ra :: ia, rb :: ib => shRow ra rb && shImg ia ib
  | _, _ => false

/-- Two batches have exactly the same (ragged) array shape. -/
def sameShape : List Image → List Image → Bool
  | [], [] => true
  | ia :: ba, ib :: bb => shImg ia ib && sameShape ba bb
  | _, _ => false

/-- Every pixel of the batch has exactly one channel. -/
def SingleChannel (b : List Image) : Prop :=
  ∀ im ∈ b, ∀ row ∈ im, ∀ px ∈ row, px.length = 1

instance (b : List Image) : Decidable (SingleChannel b) := by
  unfold SingleChannel; infer_instance

/-- `arr[..., j:j+1]`: extract channel `j` of every pixel, keeping the
last axis. -/
def extractChannel (j : Nat) (b : List Image) : List Image :=
  mapPixels (fun px => (px.drop j).take 1) b

/-- Channel value of `img` at row `y`, column `x`, channel `0`
(out-of-range reads default to `0`). -/
def getVal (img : Image) (y x : Nat) : ℚ :=
  ((img.getD y []).getD x []).getD 0 0

/-- Pixel of a batch at image `b`, row `y`, column `x`. -/
def getPx (batch : List Image) (b y x : Nat) : Pixel :=
  ((batch.getD b []).getD y []).getD x []

/-! ## C9: available masks and default mask -/

/-- C9: `get_available_masks` returns exactly the seven kinds in order,
and `get_default_mask` picks `"dfl_full"` when present, else the first
element. -/
theorem c9_available_and_default :
    get_available_masks =
      ["components", "dfl_full", "facehull", "none", "vgg_300", "vgg_500", "unet_256"] ∧
    get_default_mask = "dfl_full" ∧
    (∀ ms : List String, "dfl_full" ∈ ms → default_from ms = "dfl_full") ∧
    (∀ ms : List String, "dfl_full" ∉ ms → default_from ms = ms.headD "") := by
  refine ⟨rfl, rfl, ?_, ?_⟩
  · intro ms h
    simp [default_from, h]
  · intro ms h
    simp [default_from, h]

/-- Witness for C9 at concrete lists. -/
theorem c9_witness :
    default_from ["none", "dfl_full"] = "dfl_full" ∧
    default_from ["components"] = "components" :=
  ⟨c9_available_and_default.2.2.1 ["none", "dfl_full"] (by decide),
   c9_available_and_default.2.2.2 ["components"] (by decide)⟩

/-! ## C1: convex-hull failures are not survived -/

/-- C1 (code bug): with the `"facehull"` kind, `parts = [(landmarks)]`
holds the bare array, so `np.concatenate` flattens it to 1-D and
`cv2.convexHull` — evaluated outside the `try` block — raises
`cv2.error`, which propagates.  `build_masks` raises instead of
returning with the region left unfilled. -/
theorem c1_hull_failure_raises :
    Facehull.build_masks (some "facehull") [[[[0, 0, 0]]]]
      (.inl (List.replicate 68 [0, 0])) = .error .cv2Error := by
  decide

/-! ## C2: Smart.build_masks always raises before predicting -/

/-- C2 (code bug): for the `unet_256` (DFL) kind the canvas allocation
`np.array(..., ndim=4)` at line 162 raises `TypeError` (`np.array` has
no `ndim` keyword), so `Smart.build_masks` never returns the clamped
prediction. -/
theorem c2_smart_raises :
    Smart.build_masks (some "unet_256") [[[[0, 0, 0]]]] []
      (fun b => b) = .error .typeError := by
  rfl

/-! ## C6: invalid channel counts fail before any build -/

/-- C6: constructing a `Mask` with a channel count other than 1, 3 or 4
raises the `assert` in `Mask.__init__` — for every strategy hook, so no
mask computation is attempted. -/
theorem c6_invalid_channels (channels : Nat) (mask_type : Option String)
    (faces : List Image)
    (build : Option String → List Image → Except PyErr (List Image))
    (h1 : channels ≠ 1) (h3 : channels ≠ 3) (h4 : channels ≠ 4) :
    Mask.mk channels mask_type faces build = .error .assertionError := by
  unfold Mask.mk
  rw [if_neg]
  intro h
  rcases h with h | h | h
  · exact h1 h
  · exact h3 h
  · exact h4 h

/-- Witness for C6 at `channels = 2` with a hook that would succeed. -/
theorem c6_witness :
    Mask.mk 2 none [[[[0, 0, 0]]]] (fun _ f => .ok (Dummy.build_masks none f)) =
      .error .assertionError :=
  c6_invalid_channels 2 none [[[[0, 0, 0]]]] _ (by decide) (by decide) (by decide)

/-! ## C10: single landmark sets are promoted to a batch of one -/

/-- C10: for every faces batch and every 2-dimensional `(68, 2)` landmark
array `l`, `Facehull.build_masks` on `l` equals `Facehull.build_masks` on
the one-element batch `[l]` (the `landmarks.ndim == 2` promotion). -/
theorem c10_single_landmarks_promoted (mask_type : Option String)
    (faces : List Image) (l : LmArray)
    (h68 : l.length = 68) (h2 : ∀ r ∈ l, r.length = 2) :
    Facehull.build_masks mask_type faces (.inl l) =
      Facehull.build_masks mask_type faces (.inr [l]) := rfl

/-- Witness for C10 at a concrete `(68, 2)` landmark array. -/
theorem c10_witness :
    Facehull.build_masks none [[[[0, 0, 0]]]] (.inl (List.replicate 68 [1, 2])) =
      Facehull.build_masks none [[[[0, 0, 0]]]] (.inr [List.replicate 68 [1, 2]]) :=
  c10_single_landmarks_promoted none [[[[0, 0, 0]]]] (List.replicate 68 [1, 2])
    (by decide) (by decide)

/-! ## C3: the pass-through strategy -/

/-- C3 counterexample: with `channels = 4` (a supported value) and a
face that is not all ones, the constructed output is the face composited
with the all-ones mask — neither all ones nor of the faces' shape (six
channels instead of three). -/
theorem c3_counterexample :
    Mask.mk 4 none [[[[0, 0, 0]]]]
        (fun m f => .ok (Dummy.build_masks m f)) =
      .ok [[[[0, 0, 0, 1, 1, 1]]]] ∧
    isAllOnes [[[[0, 0, 0, 1, 1, 1]]]] = false ∧
    sameShape [[[[0, 0, 0, 1, 1, 1]]]] [[[[(0 : ℚ), 0, 0]]]] = false := by
  refine ⟨by decide, by decide, by decide⟩

/-- Pixel rows keep their shape under a per-pixel map that preserves
channel counts of each pixel it touches when `f` is `px.map g`. -/
theorem shRow_map_self (g : ℚ → ℚ) :
    ∀ row : List Pixel, shRow (row.map fun px => px.map g) row = true
  | [] => rfl
  | px :: rest => by
      simp [shRow, shRow_map_self g rest]

theorem shImg_map_self (g : ℚ → ℚ) :
    ∀ im : Image, shImg (im.map fun row => row.map fun px => px.map g) im = true
  | [] => rfl
  | row :: rest => by
      simp [shImg, shRow_map_self, shImg_map_self g rest]

theorem sameShape_map_self (g : ℚ → ℚ) :
    ∀ b : List Image,
      sameShape (b.map fun im => im.map fun row => row.map fun px => px.map g) b = true
  | [] => rfl
  | im :: rest => by
      simp [sameShape, shImg_map_self, sameShape_map_self g rest]

/-- C3, amended: the pass-through strategy's `build_masks` output is an
all-ones array of the same shape as the input faces (channels included)
for every input, empty batches included; the fully constructed output
equals it only for `channels = 1` — merging reshapes it for 3 and 4. -/
theorem c3_amended_dummy_all_ones (mask_type : Option String) (faces : List Image) :
    isAllOnes (Dummy.build_masks mask_type faces) = true ∧
    sameShape (Dummy.build_masks mask_type faces) faces = true ∧
    Mask.mk 1 mask_type faces (fun m f => .ok (Dummy.build_masks m f)) =
      .ok (Dummy.build_masks mask_type faces) := by
  refine ⟨?_, ?_, ?_⟩
  · simp [isAllOnes, Dummy.build_masks, List.all_map, Function.comp_def]
  · exact sameShape_map_self _ faces
  · simp [Mask.mk, merge_masks, Except.map]

/-! ## C7: unknown mask kinds at dispatch -/

/-- C7 counterexample: with an unknown mask kind and an empty landmark
batch, the geometric strategy's per-landmark dispatch loop never runs,
so construction succeeds (returning the merged all-zero canvas) instead
of failing at dispatch. -/
theorem c7_counterexample :
    Mask.mk 1 (some "bogus") [[[[0, 0, 0]]]]
        (fun m f => Facehull.build_masks m f (.inr [])) =
      .ok [[[[0]]]] := by
  decide

/-- C7, amended: an unknown mask kind is a `KeyError` at dispatch before
any mask is produced — always for the learned strategy, and for the
geometric strategy whenever at least one landmark set is present (its
dispatch lookup sits inside the per-landmark loop, so an empty landmark
batch skips it; see the counterexample). -/
theorem c7_amended_unknown_kind_dispatch :
    (∀ mt : Option String, mt ≠ some "vgg_300" → mt ≠ some "vgg_500" →
      mt ≠ some "unet_256" → mt ≠ none →
      ∀ (faces means : List Image) (predict : List Image → List Image),
        Smart.build_masks mt faces means predict = .error .keyError) ∧
    (∀ mt : Option String, mt ≠ some "facehull" → mt ≠ some "dfl_full" →
      mt ≠ some "components" → mt ≠ none →
      ∀ (faces : List Image) (l : LmArray) (rest : List LmArray),
        Facehull.build_masks mt faces (.inr (l :: rest)) = .error .keyError ∧
        Facehull.build_masks mt faces (.inl l) = .error .keyError) ∧
    (∀ mt : Option String, mt ≠ some "facehull" → mt ≠ some "dfl_full" →
      mt ≠ some "components" → mt ≠ none →
      ∀ (channels : Nat), channels = 1 ∨ channels = 3 ∨ channels = 4 →
      ∀ (faces : List Image) (l : LmArray) (rest : List LmArray),
        Mask.mk channels mt faces
          (fun m f => Facehull.build_masks m f (.inr (l :: rest))) =
          .error .keyError) := by
  have hsmart : ∀ mt : Option String, mt ≠ some "vgg_300" → mt ≠ some "vgg_500" →
      mt ≠ some "unet_256" → mt ≠ none → Smart.build_dict mt = .error .keyError := by
    intro mt h1 h2 h3 h4
    cases mt with
    | none => exact absurd rfl h4
    | some s =>
        have hs1 : s ≠ "vgg_300" := fun h => h1 (by rw [h])
        have hs2 : s ≠ "vgg_500" := fun h => h2 (by rw [h])
        have hs3 : s ≠ "unet_256" := fun h => h3 (by rw [h])
        simp [Smart.build_dict, hs1, hs2, hs3]
  have hhull : ∀ mt : Option String, mt ≠ some "facehull" → mt ≠ some "dfl_full" →
      mt ≠ some "components" → mt ≠ none →
      Facehull.build_dict mt = .error .keyError := by
    intro mt h1 h2 h3 h4
    cases mt with
    | none => exact absurd rfl h4
    | some s =>
        have hs1 : s ≠ "facehull" := fun h => h1 (by rw [h])
        have hs2 : s ≠ "dfl_full" := fun h => h2 (by rw [h])
        have hs3 : s ≠ "components" := fun h => h3 (by rw [h])
        simp [Facehull.build_dict, hs1, hs2, hs3]
  have hloop : ∀ mt : Option String, Facehull.build_dict mt = .error .keyError →
      ∀ (canvas : List Image) (i : Nat) (l : LmArray) (rest : List LmArray),
      facehullLoop mt canvas i (l :: rest) = .error .keyError := by
    intro mt h canvas i l rest
    simp [facehullLoop, h, Bind.bind, Except.bind]
  refine ⟨?_, ?_, ?_⟩
  · intro mt h1 h2 h3 h4 faces means predict
    simp [Smart.build_masks, hsmart mt h1 h2 h3 h4, Bind.bind, Except.bind]
  · intro mt h1 h2 h3 h4 faces l rest
    exact ⟨hloop mt (hhull mt h1 h2 h3 h4) _ 0 l rest,
           hloop mt (hhull mt h1 h2 h3 h4) _ 0 l []⟩
  · intro mt h1 h2 h3 h4 channels hc faces l rest
    have hb := hloop mt (hhull mt h1 h2 h3 h4) (zeroCanvas faces) 0 l rest
    simp [Mask.mk, hc, Facehull.build_masks, hb, Except.map]

/-- Witness for C7's amended theorem at a concrete unknown kind. -/
theorem c7_amended_witness :
    Smart.build_masks (some "bogus") [] [] (fun b => b) = .error .keyError ∧
    Facehull.build_masks (some "bogus") [[[[0, 0, 0]]]]
      (.inr [List.replicate 68 [0, 0]]) = .error .keyError ∧
    Mask.mk 1 (some "bogus") [[[[0, 0, 0]]]]
      (fun m f => Facehull.build_masks m f (.inr [List.replicate 68 [0, 0]])) =
      .error .keyError :=
  ⟨c7_amended_unknown_kind_dispatch.1 (some "bogus") (by decide) (by decide)
     (by decide) (by decide) [] [] (fun b => b),
   (c7_amended_unknown_kind_dispatch.2.1 (some "bogus") (by decide) (by decide)
     (by decide) (by decide) [[[[0, 0, 0]]]] (List.replicate 68 [0, 0]) []).1,
   c7_amended_unknown_kind_dispatch.2.2 (some "bogus") (by decide) (by decide)
     (by decide) (by decide) 1 (Or.inl rfl) [[[[0, 0, 0]]]]
     (List.replicate 68 [0, 0]) []⟩
/-- `getD` through `zipWith`, in range on both sides. -/
theorem getD_zipWith {α β γ : Type} (f : α → β → γ) (d : γ) (da : α) (db : β) :
    ∀ (as : List α) (bs : List β) (i : Nat), i < as.length → i < bs.length →
      (List.zipWith f as bs).getD i d = f (as.getD i da) (bs.getD i db)
  | [], _, i, ha, _ => absurd ha (by simp)
  | _ :: _, [], i, _, hb => absurd hb (by simp)
  | _ :: _, _ :: _, 0, _, _ => rfl
  | _ :: as, _ :: bs, i + 1, ha, hb =>
      getD_zipWith f d da db as bs i (by simpa using ha) (by simpa using hb)

/-- Pixel of a pixel-wise zip of two batches, at in-range indices. -/
theorem getPx_zipBatch (f : Pixel → Pixel → Pixel) (a b : List Image) (i y x : Nat)
    (hb1 : i < a.length) (hb2 : i < b.length)
    (hy1 : y < (a.getD i []).length) (hy2 : y < (b.getD i []).length)
    (hx1 : x < ((a.getD i []).getD y []).length)
    (hx2 : x < ((b.getD i []).getD y []).length) :
    getPx (zipBatch f a b) i y x = f (getPx a i y x) (getPx b i y x) := by
  unfold getPx zipBatch
  rw [getD_zipWith _ _ [] [] a b i hb1 hb2,
      getD_zipWith _ _ [] [] _ _ y hy1 hy2,
      getD_zipWith f _ [] [] _ _ x hx1 hx2]

/-! ## C4: channels=4 composites the face with the mask as alpha -/

/-- C4: merging with `channels = 4` appends the mask channel to the
source face's three channels: at every in-range pixel the output is the
face pixel followed by the mask pixel, so channels 0-2 equal the face
and channel 3 is the mask value. -/
theorem c4_merge4_composite (faces masks : List Image) (b y x : Nat)
    (hb1 : b < faces.length) (hb2 : b < masks.length)
    (hy1 : y < (faces.getD b []).length) (hy2 : y < (masks.getD b []).length)
    (hx1 : x < ((faces.getD b []).getD y []).length)
    (hx2 : x < ((masks.getD b []).getD y []).length)
    (hf3 : (getPx faces b y x).length = 3) :
    getPx (merge_masks 4 faces masks) b y x = getPx faces b y x ++ getPx masks b y x ∧
    (getPx (merge_masks 4 faces masks) b y x).take 3 = getPx faces b y x ∧
    (getPx (merge_masks 4 faces masks) b y x).getD 3 0 =
      (getPx masks b y x).getD 0 0 := by
  have hm : merge_masks 4 faces masks =
      zipBatch (fun pf pm => pf.take 3 ++ pm) faces masks := by
    simp [merge_masks]
  have hz := getPx_zipBatch (fun pf pm => pf.take 3 ++ pm) faces masks b y x
    hb1 hb2 hy1 hy2 hx1 hx2
  obtain ⟨q1, q2, q3, hpf⟩ := List.length_eq_three.mp hf3
  rw [hm, hz, hpf]
  refine ⟨rfl, rfl, rfl⟩

/-- Witness for C4 at a concrete 1x1x1 batch. -/
theorem c4_witness :
    getPx (merge_masks 4 [[[[2, 3, 4]]]] [[[[5]]]]) 0 0 0 =
      getPx [[[[2, 3, 4]]]] 0 0 0 ++ getPx [[[[5]]]] 0 0 0 ∧
    (getPx (merge_masks 4 [[[[2, 3, 4]]]] [[[[5]]]]) 0 0 0).take 3 =
      getPx [[[[2, 3, 4]]]] 0 0 0 ∧
    (getPx (merge_masks 4 [[[[2, 3, 4]]]] [[[[5]]]]) 0 0 0).getD 3 0 =
      (getPx [[[[5]]]] 0 0 0).getD 0 0 :=
  c4_merge4_composite [[[[2, 3, 4]]]] [[[[5]]]] 0 0 0 (by decide) (by decide)
    (by decide) (by decide) (by decide) (by decide) (by decide)

/-! ## C5: channels=3 round-trip -/

theorem mapPixels_mapPixels (f g : Pixel → Pixel) (b : List Image) :
    mapPixels f (mapPixels g b) = mapPixels (fun px => f (g px)) b := by
  simp [mapPixels, List.map_map, Function.comp_def]

theorem mapPixels_id_of_mem (f : Pixel → Pixel) (b : List Image)
    (h : ∀ im ∈ b, ∀ row ∈ im, ∀ px ∈ row, f px = px) : mapPixels f b = b := by
  unfold mapPixels
  conv_rhs => rw [show b = b.map id from (List.map_id b).symm]
  apply List.map_congr_left
  intro im him
  show _ = id im
  simp only [id]
  conv_rhs => rw [show im = im.map id from (List.map_id im).symm]
  apply List.map_congr_left
  intro row hrow
  simp only [id]
  conv_rhs => rw [show row = row.map id from (List.map_id row).symm]
  apply List.map_congr_left
  intro px hpx
  exact h im him row hrow px hpx

/-- C5: merging a single-channel mask with `channels = 3` yields three
identical copies of the channel, and extracting any one of them (numpy
`[..., j:j+1]`) gives back exactly the `channels = 1` result. -/
theorem c5_roundtrip (faces masks : List Image) (hm : SingleChannel masks)
    (j : Nat) (hj : j < 3) :
    extractChannel j (merge_masks 3 faces masks) = merge_masks 1 faces masks ∧
    extractChannel j (merge_masks 3 faces masks) =
      extractChannel 0 (merge_masks 3 faces masks) := by
  have h3 : merge_masks 3 faces masks =
      mapPixels (fun px => px.flatMap (fun q => [q, q, q])) masks := by
    simp [merge_masks]
  have h1 : merge_masks 1 faces masks = masks := by
    simp [merge_masks]
  have key : ∀ jj : Nat, jj < 3 →
      extractChannel jj (mapPixels (fun px => px.flatMap (fun q => [q, q, q])) masks) =
        masks := by
    intro jj hjj
    rw [extractChannel, mapPixels_mapPixels]
    apply mapPixels_id_of_mem
    intro im him row hrow px hpx
    obtain ⟨q, hq⟩ := List.length_eq_one.mp (hm im him row hrow px hpx)
    subst hq
    interval_cases jj <;> rfl
  exact ⟨by rw [h3, key j hj, h1], by rw [h3, key j hj, key 0 (by norm_num)]⟩

/-- Witness for C5 at a concrete single-channel mask and `j = 1`. -/
theorem c5_witness :
    extractChannel 1 (merge_masks 3 [] [[[[2]]]]) = merge_masks 1 [] [[[[2]]]] ∧
    extractChannel 1 (merge_masks 3 [] [[[[2]]]]) =
      extractChannel 0 (merge_masks 3 [] [[[[2]]]]) :=
  c5_roundtrip [] [[[[2]]]] (by decide) 1 (by decide)
/-! ## C8: the geometric canvas is binary and fills are monotone -/

/-- Every channel value of every pixel of the row is `0` or `1`. -/
def RowBinary (row : List Pixel) : Prop :=
  ∀ px ∈ row, ∀ q ∈ px, q = 0 ∨ q = 1

/-- Every channel value of the image is `0` or `1`. -/
def ImgBinary (im : Image) : Prop := ∀ row ∈ im, RowBinary row

/-- Every channel value of the batch is `0` or `1`. -/
def BinaryVals (b : List Image) : Prop := ∀ im ∈ b, ImgBinary im

/-- Every channel value of the batch is `0`. -/
def AllZeroVals (b : List Image) : Prop :=
  ∀ im ∈ b, ∀ row ∈ im, ∀ px ∈ row, ∀ q ∈ px, q = 0

instance (row : List Pixel) : Decidable (RowBinary row) := by
  unfold RowBinary; infer_instance

instance (im : Image) : Decidable (ImgBinary im) := by
  unfold ImgBinary; infer_instance

instance (b : List Image) : Decidable (BinaryVals b) := by
  unfold BinaryVals; infer_instance

instance (b : List Image) : Decidable (AllZeroVals b) := by
  unfold AllZeroVals; infer_instance

/-- The canvas allocated by `Facehull.build_masks` is all zero. -/
theorem zeroCanvas_allZero (faces : List Image) : AllZeroVals (zeroCanvas faces) := by
  intro im him row hrow px hpx q hq
  simp only [zeroCanvas, List.mem_map] at him
  obtain ⟨im0, -, rfl⟩ := him
  simp only [List.mem_map] at hrow
  obtain ⟨row0, -, rfl⟩ := hrow
  simp only [List.mem_map] at hpx
  obtain ⟨px0, -, rfl⟩ := hpx
  simpa using hq

theorem zeroCanvas_binary (faces : List Image) : BinaryVals (zeroCanvas faces) := by
  intro im him row hrow px hpx q hq
  exact Or.inl (zeroCanvas_allZero faces im him row hrow px hpx q hq)

/-- Filling a row with value `1` keeps every value `0` or `1`. -/
theorem fillRowFrom_rowBinary (pts : List (ℤ × ℤ)) (y : Nat) :
    ∀ (row : List Pixel) (x : Nat), RowBinary row →
      RowBinary (fillRowFrom pts 1 y x row) := by
  intro row
  induction row with
  | nil =>
      intro x h px hpx
      simp [fillRowFrom] at hpx
  | cons px0 rest ih =>
      intro x h px hpx
      rw [fillRowFrom] at hpx
      rcases List.mem_cons.mp hpx with hpx | hpx
      · subst hpx
        intro q hq
        split at hq
        · rcases List.mem_map.mp hq with ⟨q0, -, rfl⟩
          exact Or.inr rfl
        · exact h px0 (List.mem_cons_self px0 rest) q hq
      · exact ih (x + 1) (fun p hp => h p (List.mem_cons_of_mem _ hp)) px hpx

/-- Filling an image with value `1` keeps every value `0` or `1`. -/
theorem fillImgFrom_imgBinary (pts : List (ℤ × ℤ)) :
    ∀ (im : Image) (y : Nat), ImgBinary im → ImgBinary (fillImgFrom pts 1 y im) := by
  intro im
  induction im with
  | nil =>
      intro y h row hrow
      simp [fillImgFrom] at hrow
  | cons row0 rest ih =>
      intro y h row hrow
      rw [fillImgFrom] at hrow
      rcases List.mem_cons.mp hrow with hrow | hrow
      · subst hrow
        exact fillRowFrom_rowBinary pts y row0 0 (h row0 (List.mem_cons_self row0 rest))
      · exact ih (y + 1) (fun r hr => h r (List.mem_cons_of_mem _ hr)) row hrow

theorem fillConvexPoly_imgBinary (im : Image) (hull : LmArray) (h : ImgBinary im) :
    ImgBinary (fillConvexPoly im hull 1) :=
  fillImgFrom_imgBinary (hull.map toPair) im 0 h

/-- The value written by a row fill is the fill value or the old value. -/
theorem fillRowFrom_val (pts : List (ℤ × ℤ)) (y : Nat) :
    ∀ (row : List Pixel) (x i : Nat),
      ((fillRowFrom pts 1 y x row).getD i []).getD 0 0 = 1 ∨
      ((fillRowFrom pts 1 y x row).getD i []).getD 0 0 = ((row.getD i []).getD 0 0) := by
  intro row
  induction row with
  | nil =>
      intro x i
      right
      rfl
  | cons px0 rest ih =>
      intro x i
      rw [fillRowFrom]
      cases i with
      | zero =>
          by_cases hin : inHull pts ((x : ℤ), (y : ℤ))
          · rw [if_pos hin]
            cases px0 with
            | nil => right; rfl
            | cons q qs => left; rfl
          · rw [if_neg hin]
            right
            rfl
      | succ i => exact ih (x + 1) i

/-- The value at any position of a filled image is `1` or the old value. -/
theorem fillImgFrom_val (pts : List (ℤ × ℤ)) :
    ∀ (im : Image) (y0 y x : Nat),
      getVal (fillImgFrom pts 1 y0 im) y x = 1 ∨
      getVal (fillImgFrom pts 1 y0 im) y x = getVal im y x := by
  intro im
  induction im with
  | nil =>
      intro y0 y x
      right
      rfl
  | cons row0 rest ih =>
      intro y0 y x
      rw [fillImgFrom]
      cases y with
      | zero => exact fillRowFrom_val pts y0 row0 0 x
      | succ y => exact ih (y0 + 1) y x

theorem fillConvexPoly_val (im : Image) (hull : LmArray) (y x : Nat) :
    getVal (fillConvexPoly im hull 1) y x = 1 ∨
    getVal (fillConvexPoly im hull 1) y x = getVal im y x :=
  fillImgFrom_val (hull.map toPair) im 0 y x

/-- `processParts` preserves a binary canvas. -/
theorem processParts_binary :
    ∀ (parts : List ConcatArg) (canvas : List Image) (i : Nat) (res : List Image),
      processParts canvas i parts = .ok res → BinaryVals canvas → BinaryVals res := by
  intro parts
  induction parts with
  | nil =>
      intro canvas i res hok hbin
      simp only [processParts] at hok
      cases hok
      exact hbin
  | cons item rest ih =>
      intro canvas i res hok hbin
      rw [processParts] at hok
      cases hc : npConcatenate item with
      | error e =>
          rw [hc] at hok
          simp [Bind.bind, Except.bind] at hok
      | ok arr =>
          rw [hc] at hok
          simp only [Bind.bind, Except.bind] at hok
          cases hh : cv2.convexHull arr with
          | error e =>
              rw [hh] at hok
              simp at hok
          | ok hull =>
              rw [hh] at hok
              simp only at hok
              by_cases hlt : i < canvas.length
              · rw [dif_pos hlt] at hok
                refine ih _ i res hok ?_
                intro im him
                rcases List.mem_or_eq_of_mem_set him with him2 | rfl
                · exact hbin im him2
                · exact fillConvexPoly_imgBinary _ hull
                    (hbin _ (canvas.get_mem i hlt))
              · rw [dif_neg hlt] at hok
                simp at hok

/-- `facehullLoop` preserves a binary canvas. -/
theorem facehullLoop_binary :
    ∀ (lms : List LmArray) (mask_type : Option String) (canvas : List Image)
      (i : Nat) (res : List Image),
      facehullLoop mask_type canvas i lms = .ok res → BinaryVals canvas →
      BinaryVals res := by
  intro lms
  induction lms with
  | nil =>
      intro mt canvas i res hok hbin
      simp only [facehullLoop] at hok
      cases hok
      exact hbin
  | cons lm rest ih =>
      intro mt canvas i res hok hbin
      rw [facehullLoop] at hok
      cases hd : Facehull.build_dict mt with
      | error e =>
          rw [hd] at hok
          simp [Bind.bind, Except.bind] at hok
      | ok partsFn =>
          rw [hd] at hok
          simp only [Bind.bind, Except.bind] at hok
          cases hp : processParts canvas i (partsFn lm) with
          | error e =>
              rw [hp] at hok
              simp at hok
          | ok canvas2 =>
              rw [hp] at hok
              exact ih mt canvas2 (i + 1) res hok
                (processParts_binary (partsFn lm) canvas i canvas2 hp hbin)

/-- C8: the geometric canvas starts all zero; a fill writes `1` or keeps
the old value, so it never decreases an in-range pixel already bounded
by `1`; and every value of a successfully built facehull mask batch is
exactly `0` or exactly `1`. -/
theorem c8_canvas_binary_monotone :
    (∀ faces : List Image, AllZeroVals (zeroCanvas faces)) ∧
    (∀ (im : Image) (hull : LmArray) (y x : Nat),
        getVal (fillConvexPoly im hull 1) y x = 1 ∨
        getVal (fillConvexPoly im hull 1) y x = getVal im y x) ∧
    (∀ (mask_type : Option String) (faces : List Image) (landmarks : LmInput)
        (res : List Image),
        Facehull.build_masks mask_type faces landmarks = .ok res → BinaryVals res) ∧
    (∀ (im : Image) (hull : LmArray) (y x : Nat), getVal im y x ≤ 1 →
        getVal im y x ≤ getVal (fillConvexPoly im hull 1) y x) := by
  refine ⟨zeroCanvas_allZero, fillConvexPoly_val, ?_, ?_⟩
  · intro mt faces lms res hok
    exact facehullLoop_binary _ mt (zeroCanvas faces) 0 res hok (zeroCanvas_binary faces)
  · intro im hull y x hle
    rcases fillConvexPoly_val im hull y x with h | h
    · rw [h]; exact hle
    · rw [h]

/-- Witness for C8: a concrete successful build is binary, and a
concrete fill does not decrease a pixel. -/
theorem c8_witness :
    BinaryVals [[[[1]]]] ∧
    getVal [[[(0 : ℚ)]]] 0 0 ≤ getVal (fillConvexPoly [[[(0 : ℚ)]]] [[0, 0]] 1) 0 0 :=
  ⟨c8_canvas_binary_monotone.2.2.1 none [[[[0, 0, 0]]]] (.inl [[0, 0]]) [[[[1]]]]
     (by decide),
   c8_canvas_binary_monotone.2.2.2 [[[(0 : ℚ)]]] [[0, 0]] 0 0 (by decide)⟩
